import Mathlib

/-!
Shallow embedding of the connection-handler composition combinator of
rust-libp2p (`swarm/src/handler/select.rs`) and of the event-routing code
generated by the `NetworkBehaviour` derive macro
(`swarm-derive/src/lib.rs`), together with theorems settling the frozen
claims about them.

Child handlers are abstracted as event sinks: each routing method of the
composed handler is embedded as a pure function returning the list of
events delivered to `proto1` and to `proto2` (in delivery order).  A Rust
`panic!` branch is embedded as `Option.none`.
-/

namespace Libp2p

/-- `EitherOutput` from `libp2p-core` (`either.rs`): the two-way tagged
union used for open info, negotiated protocols and custom events.
Modelled from the spec: plain sum type with variants `First`/`Second`
(the defining crate is not part of the sources, only its shape is used). -/
inductive EitherOutput (A B : Type) where
  | First : A → EitherOutput A B
  | Second : B → EitherOutput A B
  deriving DecidableEq

/-- `EitherError` from `libp2p-core` (`either.rs`).
Modelled from the spec: plain sum type with variants `A`/`B`. -/
inductive EitherError (A B : Type) where
  | A : A → EitherError A B
  | B : B → EitherError A B
  deriving DecidableEq

/-- `EitherUpgrade` from `libp2p-core` (`upgrade/either.rs`).
Modelled from the spec: plain sum type with variants `A`/`B`. -/
inductive EitherUpgrade (A B : Type) where
  | A : A → EitherUpgrade A B
  | B : B → EitherUpgrade A B
  deriving DecidableEq

/-- `either::Either`, used as the return type of
`DialUpgradeError::transpose`. -/
inductive Either (L R : Type) where
  | Left : L → Either L R
  | Right : R → Either L R
  deriving DecidableEq

/-- `SendWrapper` from `swarm/src/upgrade.rs`: a transparent newtype the
combinator puts around each side's upgrade.
Modelled from the spec: carries the wrapped upgrade unchanged. -/
structure SendWrapper (U : Type) where
  wrapped : U
  deriving DecidableEq

/-- `SelectUpgrade` from `libp2p-core` (`upgrade/select.rs`): offers the
protocols of both sides for inbound negotiation.
Modelled from the spec: stores the two upgrades in order. -/
structure SelectUpgrade (A B : Type) where
  a : A
  b : B
  deriving DecidableEq

/-- `ProtocolError` from `libp2p-core` (`upgrade` / multistream-select).
Modelled from the spec: an `std::io::Error` is represented by its
`ErrorKind` (as a `Nat`), which is exactly what survives the
`e.kind().into()` conversion performed in `on_listen_upgrade_error`. -/
inductive ProtocolError where
  | IoError : Nat → ProtocolError
  | InvalidMessage : ProtocolError
  | InvalidProtocol : ProtocolError
  | TooManyProtocols : ProtocolError
  deriving DecidableEq

/-- `NegotiationError` from multistream-select.
Modelled from the spec: either an outright negotiation failure (no
protocol matched) or a protocol-level error. -/
inductive NegotiationError where
  | Failed : NegotiationError
  | ProtocolError : ProtocolError → NegotiationError
  deriving DecidableEq

/-- `UpgradeError<E>` from `libp2p-core`: `Select` holds a negotiation
error (before the upgrade was chosen), `Apply` an error of the chosen
upgrade. Modelled from the spec. -/
inductive UpgradeError (E : Type) where
  | Select : NegotiationError → UpgradeError E
  | Apply : E → UpgradeError E
  deriving DecidableEq

/-- `ConnectionHandlerUpgrErr<E>` from `swarm/src/handler.rs`.
Modelled from the spec: `Timeout` (protocol timeout), `Timer` (timer
failure) or an upgrade error. -/
inductive ConnectionHandlerUpgrErr (E : Type) where
  | Timeout : ConnectionHandlerUpgrErr E
  | Timer : ConnectionHandlerUpgrErr E
  | Upgrade : UpgradeError E → ConnectionHandlerUpgrErr E
  deriving DecidableEq

/-- `DialUpgradeError` event from `swarm/src/handler.rs`, parametrised by
the open-info type `I` and the apply-error type `E`. -/
structure DialUpgradeError (I E : Type) where
  info : I
  error : ConnectionHandlerUpgrErr E
  deriving DecidableEq

/-- `ListenUpgradeError` event from `swarm/src/handler.rs`. -/
structure ListenUpgradeError (I E : Type) where
  info : I
  error : ConnectionHandlerUpgrErr E
  deriving DecidableEq

/-- `FullyNegotiatedInbound` event from `swarm/src/handler.rs`. -/
structure FullyNegotiatedInbound (P I : Type) where
  protocol : P
  info : I
  deriving DecidableEq

/-- `FullyNegotiatedOutbound` event from `swarm/src/handler.rs`. -/
structure FullyNegotiatedOutbound (P I : Type) where
  protocol : P
  info : I
  deriving DecidableEq

/-- `AddressChange` event from `swarm/src/handler.rs`. -/
structure AddressChange (Addr : Type) where
  new_address : Addr
  deriving DecidableEq

/-- `ConnectionEvent` from `swarm/src/handler.rs`, parametrised by the
inbound/outbound protocol output types, inbound/outbound open-info
types, inbound/outbound apply-error types and the address type. -/
inductive ConnectionEvent (IP OP II OI EI EO Addr : Type) where
  | FullyNegotiatedInbound : FullyNegotiatedInbound IP II → ConnectionEvent IP OP II OI EI EO Addr
  | FullyNegotiatedOutbound : FullyNegotiatedOutbound OP OI → ConnectionEvent IP OP II OI EI EO Addr
  | AddressChange : AddressChange Addr → ConnectionEvent IP OP II OI EI EO Addr
  | DialUpgradeError : DialUpgradeError OI EO → ConnectionEvent IP OP II OI EI EO Addr
  | ListenUpgradeError : ListenUpgradeError II EI → ConnectionEvent IP OP II OI EI EO Addr
  deriving DecidableEq

section Transpose

variable {OI1 OI2 EO1 EO2 : Type}

/-- `DialUpgradeError::transpose` (`select.rs`, lines 113-173): splits a
composed dial-upgrade error into the side it belongs to.  The Rust
catch-all `panic!("Wrong API usage; ...")` is embedded as `none`. -/
def DialUpgradeError.transpose :
    DialUpgradeError (EitherOutput OI1 OI2) (EitherError EO1 EO2) →
      Option (Either (DialUpgradeError OI1 EO1) (DialUpgradeError OI2 EO2))
  | ⟨.First info, .Timer⟩ => some (.Left ⟨info, .Timer⟩)
  | ⟨.First info, .Timeout⟩ => some (.Left ⟨info, .Timeout⟩)
  | ⟨.First info, .Upgrade (.Select err)⟩ => some (.Left ⟨info, .Upgrade (.Select err)⟩)
  | ⟨.First info, .Upgrade (.Apply (.A err))⟩ => some (.Left ⟨info, .Upgrade (.Apply err)⟩)
  | ⟨.Second info, .Timer⟩ => some (.Right ⟨info, .Timer⟩)
  | ⟨.Second info, .Timeout⟩ => some (.Right ⟨info, .Timeout⟩)
  | ⟨.Second info, .Upgrade (.Select err)⟩ => some (.Right ⟨info, .Upgrade (.Select err)⟩)
  | ⟨.Second info, .Upgrade (.Apply (.B err))⟩ => some (.Right ⟨info, .Upgrade (.Apply err)⟩)
  | _ => none

end Transpose

section SelectHandler

variable {IP1 IP2 OP1 OP2 II1 II2 OI1 OI2 EI1 EI2 EO1 EO2 Addr : Type}

/-- Per-side connection event of `proto1`. -/
abbrev Ev1 (IP1 OP1 II1 OI1 EI1 EO1 Addr : Type) :=
  ConnectionEvent IP1 OP1 II1 OI1 EI1 EO1 Addr

/-- The events the composed handler delivers to `proto1` and to `proto2`
(in delivery order) while processing one incoming event. -/
abbrev Deliveries (IP1 OP1 II1 OI1 EI1 EO1 IP2 OP2 II2 OI2 EI2 EO2 Addr : Type) :=
  List (ConnectionEvent IP1 OP1 II1 OI1 EI1 EO1 Addr) ×
    List (ConnectionEvent IP2 OP2 II2 OI2 EI2 EO2 Addr)

/-- `ConnectionHandlerSelect::on_fully_negotiated_outbound` (`select.rs`,
lines 181-211): matching tags route the substream to the owning side; a
tag mismatch is the Rust `panic!("wrong API usage: ...")`, embedded as
`none`. -/
def on_fully_negotiated_outbound
    (ev : FullyNegotiatedOutbound (EitherOutput OP1 OP2) (EitherOutput OI1 OI2)) :
    Option (Deliveries IP1 OP1 II1 OI1 EI1 EO1 IP2 OP2 II2 OI2 EI2 EO2 Addr) :=
  match ev.protocol, ev.info with
  | .First protocol, .First info =>
      some ([.FullyNegotiatedOutbound ⟨protocol, info⟩], [])
  | .Second protocol, .Second info =>
      some ([], [.FullyNegotiatedOutbound ⟨protocol, info⟩])
  | .First _, .Second _ => none
  | .Second _, .First _ => none

/-- `ConnectionHandlerSelect::on_fully_negotiated_inbound` (`select.rs`,
lines 213-237): the negotiated side receives the substream together with
its own half of the inbound open info. -/
def on_fully_negotiated_inbound
    (ev : FullyNegotiatedInbound (EitherOutput IP1 IP2) (II1 × II2)) :
    Deliveries IP1 OP1 II1 OI1 EI1 EO1 IP2 OP2 II2 OI2 EI2 EO2 Addr :=
  match ev with
  | ⟨.First protocol, (i1, _)⟩ => ([.FullyNegotiatedInbound ⟨protocol, i1⟩], [])
  | ⟨.Second protocol, (_, i2)⟩ => ([], [.FullyNegotiatedInbound ⟨protocol, i2⟩])

/-- `ConnectionHandlerSelect::on_dial_upgrade_error` (`select.rs`, lines
239-254): transpose the error and deliver it to the side it belongs to;
the `transpose` panic propagates as `none`. -/
def on_dial_upgrade_error
    (err : DialUpgradeError (EitherOutput OI1 OI2) (EitherError EO1 EO2)) :
    Option (Deliveries IP1 OP1 II1 OI1 EI1 EO1 IP2 OP2 II2 OI2 EI2 EO2 Addr) :=
  match err.transpose with
  | some (.Left e) => some ([.DialUpgradeError e], [])
  | some (.Right e) => some ([], [.DialUpgradeError e])
  | none => none

/-- `ConnectionHandlerSelect::on_listen_upgrade_error` (`select.rs`,
lines 256-360): pre-negotiation failures (`Timer`, `Timeout`, `Select`)
are fanned out to both sides, each with its own half of the inbound open
info; post-negotiation `Apply` errors go only to the tagged side.  In the
`IoError` sub-case the source re-creates the first side's error from the
kind via `e.kind().into()`; an io error is modelled by its kind, so both
reconstructed errors carry that same kind. -/
def on_listen_upgrade_error
    (err : ListenUpgradeError (II1 × II2) (EitherError EI1 EI2)) :
    Deliveries IP1 OP1 II1 OI1 EI1 EO1 IP2 OP2 II2 OI2 EI2 EO2 Addr :=
  match err with
  | ⟨(i1, i2), error⟩ =>
    match error with
    | .Timer =>
        ([.ListenUpgradeError ⟨i1, .Timer⟩], [.ListenUpgradeError ⟨i2, .Timer⟩])
    | .Timeout =>
        ([.ListenUpgradeError ⟨i1, .Timeout⟩], [.ListenUpgradeError ⟨i2, .Timeout⟩])
    | .Upgrade (.Select .Failed) =>
        ([.ListenUpgradeError ⟨i1, .Upgrade (.Select .Failed)⟩],
         [.ListenUpgradeError ⟨i2, .Upgrade (.Select .Failed)⟩])
    | .Upgrade (.Select (.ProtocolError e)) =>
        let es : NegotiationError × NegotiationError :=
          match e with
          | .IoError k =>
              (.ProtocolError (.IoError k), .ProtocolError (.IoError k))
          | .InvalidMessage => (.ProtocolError .InvalidMessage, .ProtocolError .InvalidMessage)
          | .InvalidProtocol => (.ProtocolError .InvalidProtocol, .ProtocolError .InvalidProtocol)
          | .TooManyProtocols =>
              (.ProtocolError .TooManyProtocols, .ProtocolError .TooManyProtocols)
        ([.ListenUpgradeError ⟨i1, .Upgrade (.Select es.1)⟩],
         [.ListenUpgradeError ⟨i2, .Upgrade (.Select es.2)⟩])
    | .Upgrade (.Apply (.A e)) =>
        ([.ListenUpgradeError ⟨i1, .Upgrade (.Apply e)⟩], [])
    | .Upgrade (.Apply (.B e)) =>
        ([], [.ListenUpgradeError ⟨i2, .Upgrade (.Apply e)⟩])

/-- `ConnectionHandlerSelect::on_connection_event` (`select.rs`, lines
454-488): dispatch an incoming connection event; `AddressChange` is
fanned out to both sides unconditionally. -/
def on_connection_event
    (ev : ConnectionEvent (EitherOutput IP1 IP2) (EitherOutput OP1 OP2) (II1 × II2)
      (EitherOutput OI1 OI2) (EitherError EI1 EI2) (EitherError EO1 EO2) Addr) :
    Option (Deliveries IP1 OP1 II1 OI1 EI1 EO1 IP2 OP2 II2 OI2 EI2 EO2 Addr) :=
  match ev with
  | .FullyNegotiatedOutbound fno => on_fully_negotiated_outbound fno
  | .FullyNegotiatedInbound fni => some (on_fully_negotiated_inbound fni)
  | .AddressChange address =>
      some ([.AddressChange ⟨address.new_address⟩], [.AddressChange ⟨address.new_address⟩])
  | .DialUpgradeError due => on_dial_upgrade_error due
  | .ListenUpgradeError lue => some (on_listen_upgrade_error lue)

end SelectHandler

/-- `KeepAlive` from `swarm/src/lib.rs`.
Modelled from the spec: the defining module is not part of the sources;
`Yes` is the most permissive requirement, `No` the least, `Until t`
in between, ordered chronologically (an `Instant` is modelled as `Nat`). -/
inductive KeepAlive where
  | Until : Nat → KeepAlive
  | Yes : KeepAlive
  | No : KeepAlive
  deriving DecidableEq

namespace KeepAlive

/-- `Ord for KeepAlive`.
Modelled from the spec: `No < Until t < Yes`, `Until` compared by
instant. -/
def cmp : KeepAlive → KeepAlive → Ordering
  | No, No => .eq
  | Yes, Yes => .eq
  | No, _ => .lt
  | _, Yes => .lt
  | _, No => .gt
  | Yes, _ => .gt
  | Until t1, Until t2 =>
      if t1 < t2 then .lt else if t1 = t2 then .eq else .gt

/-- `a` is at most as permissive as `b` under the `KeepAlive` order. -/
def le (a b : KeepAlive) : Prop := cmp a b ≠ .gt

instance (a b : KeepAlive) : Decidable (le a b) := by
  unfold le; infer_instance

/-- `std::cmp::max` specialised to `KeepAlive`: returns the second
argument when the two compare equal, as Rust's `Ord::max` does. -/
def cmp_max (v1 v2 : KeepAlive) : KeepAlive :=
  match cmp v1 v2 with
  | .gt => v1
  | _ => v2

end KeepAlive

/-- `ConnectionHandlerSelect::connection_keep_alive` (`select.rs`, lines
399-404): `cmp::max` of the two sides' keep-alive values. -/
def connection_keep_alive (k1 k2 : KeepAlive) : KeepAlive :=
  KeepAlive.cmp_max k1 k2

/-- `SubstreamProtocol` from `swarm/src/handler.rs`.
Modelled from the spec: an upgrade, its open info and a negotiation
timeout (a `Duration`, modelled as `Nat`); `new` applies the default
timeout, `with_timeout`/`map_upgrade`/`map_info` rebuild the record
field-wise. -/
structure SubstreamProtocol (U I : Type) where
  upgrade : U
  info : I
  timeout : Nat
  deriving DecidableEq

namespace SubstreamProtocol

/-- `SubstreamProtocol::new`, with the default 10-second timeout
(modelled from the spec; the default is immediately overwritten by the
combinator's `with_timeout`). -/
def new {U I : Type} (upgrade : U) (info : I) : SubstreamProtocol U I :=
  ⟨upgrade, info, 10⟩

/-- `SubstreamProtocol::with_timeout`. -/
def with_timeout {U I : Type} (p : SubstreamProtocol U I) (timeout : Nat) :
    SubstreamProtocol U I :=
  ⟨p.upgrade, p.info, timeout⟩

/-- `SubstreamProtocol::map_upgrade`. -/
def map_upgrade {U V I : Type} (p : SubstreamProtocol U I) (f : U → V) :
    SubstreamProtocol V I :=
  ⟨f p.upgrade, p.info, p.timeout⟩

/-- `SubstreamProtocol::map_info`. -/
def map_info {U I J : Type} (p : SubstreamProtocol U I) (f : I → J) :
    SubstreamProtocol U J :=
  ⟨p.upgrade, f p.info, p.timeout⟩

end SubstreamProtocol

section ListenProtocol

variable {U1 U2 II1 II2 : Type}

/-- `ConnectionHandlerSelect::listen_protocol` (`select.rs`, lines
382-390): offer both sides' upgrades through `SelectUpgrade`, pair the
open infos, and take `std::cmp::max` of the two timeouts. -/
def listen_protocol (proto1 : SubstreamProtocol U1 II1) (proto2 : SubstreamProtocol U2 II2) :
    SubstreamProtocol (SelectUpgrade (SendWrapper U1) (SendWrapper U2)) (II1 × II2) :=
  let timeout := max proto1.timeout proto2.timeout
  let choice : SelectUpgrade (SendWrapper U1) (SendWrapper U2) :=
    ⟨⟨proto1.upgrade⟩, ⟨proto2.upgrade⟩⟩
  (SubstreamProtocol.new choice (proto1.info, proto2.info)).with_timeout timeout

end ListenProtocol

/-- `std::task::Poll`. -/
inductive Poll (A : Type) where
  | Ready : A → Poll A
  | Pending : Poll A
  deriving DecidableEq

/-- `ConnectionHandlerEvent` from `swarm/src/handler.rs`.
Modelled from the spec: a handler's poll yields a custom behaviour
event, a close request, or an outbound substream request carrying a
`SubstreamProtocol`. -/
inductive ConnectionHandlerEvent (U OI CE Err : Type) where
  | Custom : CE → ConnectionHandlerEvent U OI CE Err
  | Close : Err → ConnectionHandlerEvent U OI CE Err
  | OutboundSubstreamRequest : SubstreamProtocol U OI → ConnectionHandlerEvent U OI CE Err
  deriving DecidableEq

section PollSelect

variable {U1 U2 OI1 OI2 CE1 CE2 Err1 Err2 : Type}

/-- `ConnectionHandlerSelect::poll` (`select.rs`, lines 406-452) for one
invocation, given the outcomes of polling each child in this invocation:
`proto1` is polled first and any ready event is returned at once with
first-side wrapping; only on `Pending` is `proto2` polled, with
second-side wrapping; `Pending` is returned when both are pending. -/
def ConnectionHandlerSelect.poll
    (p1 : Poll (ConnectionHandlerEvent U1 OI1 CE1 Err1))
    (p2 : Poll (ConnectionHandlerEvent U2 OI2 CE2 Err2)) :
    Poll (ConnectionHandlerEvent (EitherUpgrade (SendWrapper U1) (SendWrapper U2))
      (EitherOutput OI1 OI2) (EitherOutput CE1 CE2) (EitherError Err1 Err2)) :=
  match p1 with
  | .Ready (.Custom event) => .Ready (.Custom (.First event))
  | .Ready (.Close event) => .Ready (.Close (.A event))
  | .Ready (.OutboundSubstreamRequest protocol) =>
      .Ready (.OutboundSubstreamRequest
        ((protocol.map_upgrade (fun u => .A ⟨u⟩)).map_info .First))
  | .Pending =>
    match p2 with
    | .Ready (.Custom event) => .Ready (.Custom (.Second event))
    | .Ready (.Close event) => .Ready (.Close (.B event))
    | .Ready (.OutboundSubstreamRequest protocol) =>
        .Ready (.OutboundSubstreamRequest
          ((protocol.map_upgrade (fun u => .B ⟨u⟩)).map_info .Second))
    | .Pending => .Pending

end PollSelect

/-!
Embedding of the event-routing code emitted by the `NetworkBehaviour`
derive macro (`swarm-derive/src/lib.rs`).  The macro iterates over the
struct's fields and emits one statement per field; a field is modelled by
its name (the derive requires named fields: its `poll` generation
rejects unnamed ones), an emitted `self.<field>.on_swarm_event(ev)`
statement by the pair `(field, ev)`, and the token payload of each event
variant by an opaque value that the macro forwards verbatim.  The
`handler` threading of the `ConnectionClosed` / `DialFailure` /
`ListenFailure` arms (splitting the composed handler back into its
components) is not modelled; only which fields are notified, with which
event, in which order.
-/

/-- `FromSwarm` lifecycle notifications dispatched by the generated
`on_swarm_event` body, one constructor per variant the macro handles,
each carrying its (opaque, verbatim-forwarded) payload. -/
inductive FromSwarm (P : Type) where
  | ConnectionEstablished : P → FromSwarm P
  | AddressChange : P → FromSwarm P
  | ConnectionClosed : P → FromSwarm P
  | DialFailure : P → FromSwarm P
  | ListenFailure : P → FromSwarm P
  | NewListener : P → FromSwarm P
  | NewListenAddr : P → FromSwarm P
  | ExpiredListenAddr : P → FromSwarm P
  | NewExternalAddr : P → FromSwarm P
  | ExpiredExternalAddr : P → FromSwarm P
  | ListenerError : P → FromSwarm P
  | ListenerClosed : P → FromSwarm P
  deriving DecidableEq

section DeriveFanout

variable {P : Type}

/-- The `on_swarm_event` body generated by `build_struct`
(`swarm-derive/src/lib.rs`, lines 192-402): every variant's statement
list notifies each field once; the statements of `ConnectionClosed`,
`DialFailure` and `ListenFailure` are emitted in reversed field order
(`.iter().enumerate().rev()`, because the outermost handler belongs to
the last behaviour), all the others in declaration order. -/
def derived_on_swarm_event (fields : List String) (ev : FromSwarm P) :
    List (String × FromSwarm P) :=
  match ev with
  | .ConnectionClosed _ => (fields.reverse).map (fun f => (f, ev))
  | .DialFailure _ => (fields.reverse).map (fun f => (f, ev))
  | .ListenFailure _ => (fields.reverse).map (fun f => (f, ev))
  | _ => fields.map (fun f => (f, ev))

end DeriveFanout

/-- A side of the binary `select` combinator, for navigating composed
handler trees and the nested `Either` patterns the macro emits. -/
inductive SelectSide where
  | first : SelectSide
  | second : SelectSide
  deriving DecidableEq

/-- The shape of a composed `IntoConnectionHandlerSelect` tree over the
behaviour struct's fields: a leaf is one field's own handler (identified
by field position), an inner node one application of the binary `select`
combinator. -/
inductive HandlerTree where
  | leaf : Nat → HandlerTree
  | select : HandlerTree → HandlerTree → HandlerTree
  deriving DecidableEq

namespace HandlerTree

/-- The fields of a composed tree, left to right. -/
def leaves : HandlerTree → List Nat
  | .leaf f => [f]
  | .select l r => l.leaves ++ r.leaves

/-- A tree is left-nested when every right child is a leaf. -/
def left_nested : HandlerTree → Bool
  | .leaf _ => true
  | .select l (.leaf _) => l.left_nested
  | .select _ (.select _ _) => false

/-- Navigate a composed tree along a path of sides. -/
def resolve : HandlerTree → List SelectSide → Option HandlerTree
  | t, [] => some t
  | .select l _, .first :: p => l.resolve p
  | .select _ r, .second :: p => r.resolve p
  | .leaf _, _ :: _ => none

end HandlerTree

/-- The `new_handler` body generated by `build_struct`
(`swarm-derive/src/lib.rs`, lines 440-464): starting from no handler,
each field's handler is combined with the accumulator by
`IntoConnectionHandler::select(accumulator, field)`; the
`ConnectionHandler` associated type (lines 425-438) is built by the same
fold.  Fields are identified by position; an empty struct yields `none`
(the generated `()` placeholder). -/
def new_handler (fields : List Nat) : Option HandlerTree :=
  fields.foldl
    (fun out_handler f =>
      match out_handler with
      | some h => some (.select h (.leaf f))
      | none => some (.leaf f))
    none

/-- The pattern emitted by `on_node_event_stmts`
(`swarm-derive/src/lib.rs`, lines 404-423) for field `i` of `n`, read as
a path into the composed event's nested `Either` wrapping: the innermost
event is wrapped in a `Second` unless `i = 0`, then in `First` once per
remaining iteration (`n - 1 - i` times). -/
def on_node_event_path (n i : Nat) : List SelectSide :=
  List.replicate (n - 1 - i) .first ++ (if i = 0 then [] else [.second])

/-- The tree shape claimed by the spec, following its words: a right
fold, `select(h1, select(h2, ... select(h_Nm1, h_N)))`. -/
def right_fold_shape : List Nat → Option HandlerTree
  | [] => none
  | [f] => some (.leaf f)
  | f :: fs =>
    match right_fold_shape fs with
    | some t => some (.select (.leaf f) t)
    | none => some (.leaf f)

/-- The contract assumed by `DialUpgradeError::transpose`: the open-info
tag agrees with the side of an `Apply` error payload (the other error
shapes carry no side). -/
def dial_tags_match {OI1 OI2 EO1 EO2 : Type} :
    DialUpgradeError (EitherOutput OI1 OI2) (EitherError EO1 EO2) → Bool
  | ⟨.First _, .Upgrade (.Apply (.B _))⟩ => false
  | ⟨.Second _, .Upgrade (.Apply (.A _))⟩ => false
  | _ => true

section Theorems

variable {IP1 IP2 OP1 OP2 II1 II2 OI1 OI2 EI1 EI2 EO1 EO2 Addr : Type}

/-- C1: a dial-upgrade error whose open info is tagged `First` and whose
payload belongs to the first side (`Timer`, `Timeout`, `Select`, or
`Apply (A _)`) is delivered only to `proto1`, with the non-matching side
receiving no event; symmetrically for `Second` / `Apply (B _)` and
`proto2`. -/
theorem dial_upgrade_error_routed_only_to_matching_side :
    (∀ i : OI1,
      @on_dial_upgrade_error IP1 IP2 OP1 OP2 II1 II2 OI1 OI2 EI1 EI2 EO1 EO2 Addr
          ⟨.First i, .Timer⟩ =
        some ([.DialUpgradeError ⟨i, .Timer⟩], [])) ∧
    (∀ i : OI1,
      @on_dial_upgrade_error IP1 IP2 OP1 OP2 II1 II2 OI1 OI2 EI1 EI2 EO1 EO2 Addr
          ⟨.First i, .Timeout⟩ =
        some ([.DialUpgradeError ⟨i, .Timeout⟩], [])) ∧
    (∀ (i : OI1) (e : NegotiationError),
      @on_dial_upgrade_error IP1 IP2 OP1 OP2 II1 II2 OI1 OI2 EI1 EI2 EO1 EO2 Addr
          ⟨.First i, .Upgrade (.Select e)⟩ =
        some ([.DialUpgradeError ⟨i, .Upgrade (.Select e)⟩], [])) ∧
    (∀ (i : OI1) (e : EO1),
      @on_dial_upgrade_error IP1 IP2 OP1 OP2 II1 II2 OI1 OI2 EI1 EI2 EO1 EO2 Addr
          ⟨.First i, .Upgrade (.Apply (.A e))⟩ =
        some ([.DialUpgradeError ⟨i, .Upgrade (.Apply e)⟩], [])) ∧
    (∀ i : OI2,
      @on_dial_upgrade_error IP1 IP2 OP1 OP2 II1 II2 OI1 OI2 EI1 EI2 EO1 EO2 Addr
          ⟨.Second i, .Timer⟩ =
        some ([], [.DialUpgradeError ⟨i, .Timer⟩])) ∧
    (∀ i : OI2,
      @on_dial_upgrade_error IP1 IP2 OP1 OP2 II1 II2 OI1 OI2 EI1 EI2 EO1 EO2 Addr
          ⟨.Second i, .Timeout⟩ =
        some ([], [.DialUpgradeError ⟨i, .Timeout⟩])) ∧
    (∀ (i : OI2) (e : NegotiationError),
      @on_dial_upgrade_error IP1 IP2 OP1 OP2 II1 II2 OI1 OI2 EI1 EI2 EO1 EO2 Addr
          ⟨.Second i, .Upgrade (.Select e)⟩ =
        some ([], [.DialUpgradeError ⟨i, .Upgrade (.Select e)⟩])) ∧
    (∀ (i : OI2) (e : EO2),
      @on_dial_upgrade_error IP1 IP2 OP1 OP2 II1 II2 OI1 OI2 EI1 EI2 EO1 EO2 Addr
          ⟨.Second i, .Upgrade (.Apply (.B e))⟩ =
        some ([], [.DialUpgradeError ⟨i, .Upgrade (.Apply e)⟩])) :=
  ⟨fun _ => rfl, fun _ => rfl, fun _ _ => rfl, fun _ _ => rfl,
   fun _ => rfl, fun _ => rfl, fun _ _ => rfl, fun _ _ => rfl⟩

/-- C2: a listen-upgrade error that precedes protocol commitment
(`Timer`, `Timeout`, or a `Select` negotiation error) is fanned out to
both `proto1` and `proto2` with the same underlying cause (each side
getting its own half of the inbound open info); a post-negotiation
`Apply` error tagged `A` or `B` is delivered only to the correspondingly
tagged side. -/
theorem listen_upgrade_error_fanout_and_apply_routing :
    (∀ (i1 : II1) (i2 : II2),
      @on_listen_upgrade_error IP1 IP2 OP1 OP2 II1 II2 OI1 OI2 EI1 EI2 EO1 EO2 Addr
          ⟨(i1, i2), .Timer⟩ =
        ([.ListenUpgradeError ⟨i1, .Timer⟩], [.ListenUpgradeError ⟨i2, .Timer⟩])) ∧
    (∀ (i1 : II1) (i2 : II2),
      @on_listen_upgrade_error IP1 IP2 OP1 OP2 II1 II2 OI1 OI2 EI1 EI2 EO1 EO2 Addr
          ⟨(i1, i2), .Timeout⟩ =
        ([.ListenUpgradeError ⟨i1, .Timeout⟩], [.ListenUpgradeError ⟨i2, .Timeout⟩])) ∧
    (∀ (i1 : II1) (i2 : II2) (ne : NegotiationError),
      @on_listen_upgrade_error IP1 IP2 OP1 OP2 II1 II2 OI1 OI2 EI1 EI2 EO1 EO2 Addr
          ⟨(i1, i2), .Upgrade (.Select ne)⟩ =
        ([.ListenUpgradeError ⟨i1, .Upgrade (.Select ne)⟩],
         [.ListenUpgradeError ⟨i2, .Upgrade (.Select ne)⟩])) ∧
    (∀ (i1 : II1) (i2 : II2) (e : EI1),
      @on_listen_upgrade_error IP1 IP2 OP1 OP2 II1 II2 OI1 OI2 EI1 EI2 EO1 EO2 Addr
          ⟨(i1, i2), .Upgrade (.Apply (.A e))⟩ =
        ([.ListenUpgradeError ⟨i1, .Upgrade (.Apply e)⟩], [])) ∧
    (∀ (i1 : II1) (i2 : II2) (e : EI2),
      @on_listen_upgrade_error IP1 IP2 OP1 OP2 II1 II2 OI1 OI2 EI1 EI2 EO1 EO2 Addr
          ⟨(i1, i2), .Upgrade (.Apply (.B e))⟩ =
        ([], [.ListenUpgradeError ⟨i2, .Upgrade (.Apply e)⟩])) := by
  refine ⟨fun _ _ => rfl, fun _ _ => rfl, fun i1 i2 ne => ?_, fun _ _ _ => rfl,
    fun _ _ _ => rfl⟩
  rcases ne with _ | pe
  · rfl
  · rcases pe with k | _ | _ | _ <;> rfl

/-- C3: a dial-upgrade error whose open-info tag contradicts its `Apply`
payload's side hits the `panic!` branch of `transpose`, and a fully
negotiated outbound substream whose protocol tag differs from its
open-info tag hits the `panic!` branch of `on_fully_negotiated_outbound`
(both embedded as `none`); whenever the tags match, the result is `some`,
so the panic branches are unreachable under the tag-agreement
precondition. -/
theorem mismatched_tags_panic_and_are_unreachable_when_tags_match :
    (∀ (i : OI1) (e : EO2),
      DialUpgradeError.transpose
          (⟨.First i, .Upgrade (.Apply (.B e))⟩ :
            DialUpgradeError (EitherOutput OI1 OI2) (EitherError EO1 EO2)) = none) ∧
    (∀ (i : OI2) (e : EO1),
      DialUpgradeError.transpose
          (⟨.Second i, .Upgrade (.Apply (.A e))⟩ :
            DialUpgradeError (EitherOutput OI1 OI2) (EitherError EO1 EO2)) = none) ∧
    (∀ (p : OP1) (i : OI2),
      @on_fully_negotiated_outbound IP1 IP2 OP1 OP2 II1 II2 OI1 OI2 EI1 EI2 EO1 EO2 Addr
          ⟨.First p, .Second i⟩ = none) ∧
    (∀ (p : OP2) (i : OI1),
      @on_fully_negotiated_outbound IP1 IP2 OP1 OP2 II1 II2 OI1 OI2 EI1 EI2 EO1 EO2 Addr
          ⟨.Second p, .First i⟩ = none) ∧
    (∀ err : DialUpgradeError (EitherOutput OI1 OI2) (EitherError EO1 EO2),
      dial_tags_match err = true → (DialUpgradeError.transpose err).isSome = true) ∧
    (∀ (p : OP1) (i : OI1),
      (@on_fully_negotiated_outbound IP1 IP2 OP1 OP2 II1 II2 OI1 OI2 EI1 EI2 EO1 EO2 Addr
          ⟨.First p, .First i⟩).isSome = true) ∧
    (∀ (p : OP2) (i : OI2),
      (@on_fully_negotiated_outbound IP1 IP2 OP1 OP2 II1 II2 OI1 OI2 EI1 EI2 EO1 EO2 Addr
          ⟨.Second p, .Second i⟩).isSome = true) := by
  refine ⟨fun _ _ => rfl, fun _ _ => rfl, fun _ _ => rfl, fun _ _ => rfl, ?_,
    fun _ _ => rfl, fun _ _ => rfl⟩
  rintro ⟨info, error⟩ h
  rcases info with i | i <;>
    rcases error with _ | _ | u <;>
    first
      | rfl
      | (rcases u with ne | ae
         · rfl
         · rcases ae with e | e
           · first | rfl | exact absurd h (by simp [dial_tags_match])
           · first | rfl | exact absurd h (by simp [dial_tags_match]))

/-- C3 witness: at a concrete matching input the transpose is `some`. -/
theorem mismatched_tags_witness :
    (DialUpgradeError.transpose
        (⟨.First 0, .Timer⟩ :
          DialUpgradeError (EitherOutput Nat Nat) (EitherError Nat Nat))).isSome = true :=
  (@mismatched_tags_panic_and_are_unreachable_when_tags_match
      Nat Nat Nat Nat Nat Nat Nat Nat Nat Nat Nat Nat Nat).2.2.2.2.1
    ⟨.First 0, .Timer⟩ (by decide)

/-- C4: the composed keep-alive is exactly the maximum of the two sides'
keep-alive values under the `KeepAlive` order: it is one of the two and
at least as permissive as each. -/
theorem composed_keep_alive_is_max :
    ∀ k1 k2 : KeepAlive,
      (connection_keep_alive k1 k2 = k1 ∨ connection_keep_alive k1 k2 = k2) ∧
      KeepAlive.le k1 (connection_keep_alive k1 k2) ∧
      KeepAlive.le k2 (connection_keep_alive k1 k2) := by
  intro k1 k2
  rcases k1 with t1 | _ | _ <;> rcases k2 with t2 | _ | _ <;>
    simp [connection_keep_alive, KeepAlive.cmp_max, KeepAlive.cmp, KeepAlive.le]
  · split_ifs with h1 h2 <;> simp [KeepAlive.le, KeepAlive.cmp] <;> omega

/-- C6: a fully negotiated inbound or outbound substream is delivered to
exactly the side whose protocol was negotiated, with that side's own open
info, and a custom event surfaced by `poll` is wrapped `First` when it
came from `proto1` and `Second` when it came from `proto2`. -/
theorem negotiated_substreams_and_custom_events_tagged_by_side :
    (∀ (p : IP1) (i1 : II1) (i2 : II2),
      @on_fully_negotiated_inbound IP1 IP2 OP1 OP2 II1 II2 OI1 OI2 EI1 EI2 EO1 EO2 Addr
          ⟨.First p, (i1, i2)⟩ = ([.FullyNegotiatedInbound ⟨p, i1⟩], [])) ∧
    (∀ (p : IP2) (i1 : II1) (i2 : II2),
      @on_fully_negotiated_inbound IP1 IP2 OP1 OP2 II1 II2 OI1 OI2 EI1 EI2 EO1 EO2 Addr
          ⟨.Second p, (i1, i2)⟩ = ([], [.FullyNegotiatedInbound ⟨p, i2⟩])) ∧
    (∀ (p : OP1) (i : OI1),
      @on_fully_negotiated_outbound IP1 IP2 OP1 OP2 II1 II2 OI1 OI2 EI1 EI2 EO1 EO2 Addr
          ⟨.First p, .First i⟩ = some ([.FullyNegotiatedOutbound ⟨p, i⟩], [])) ∧
    (∀ (p : OP2) (i : OI2),
      @on_fully_negotiated_outbound IP1 IP2 OP1 OP2 II1 II2 OI1 OI2 EI1 EI2 EO1 EO2 Addr
          ⟨.Second p, .Second i⟩ = some ([], [.FullyNegotiatedOutbound ⟨p, i⟩])) ∧
    (∀ {U1 U2 CE1 CE2 Err1 Err2 : Type} (e : CE1)
        (p2 : Poll (ConnectionHandlerEvent U2 OI2 CE2 Err2)),
      ConnectionHandlerSelect.poll
          (Poll.Ready (ConnectionHandlerEvent.Custom e) :
            Poll (ConnectionHandlerEvent U1 OI1 CE1 Err1)) p2 =
        .Ready (.Custom (.First e))) ∧
    (∀ {U1 U2 CE1 CE2 Err1 Err2 : Type} (e : CE2),
      ConnectionHandlerSelect.poll
          (Poll.Pending : Poll (ConnectionHandlerEvent U1 OI1 CE1 Err1))
          (Poll.Ready (ConnectionHandlerEvent.Custom e) :
            Poll (ConnectionHandlerEvent U2 OI2 CE2 Err2)) =
        .Ready (.Custom (.Second e))) :=
  ⟨fun _ _ _ => rfl, fun _ _ _ => rfl, fun _ _ => rfl, fun _ _ => rfl,
   fun _ _ => rfl, fun _ => rfl⟩

/-- C7: an outbound substream request surfaced by `poll` passes through
with its upgrade wrapped `EitherUpgrade::A` (inside `SendWrapper`) and
its open info wrapped `EitherOutput::First` when it came from `proto1`,
and `B` / `Second` when it came from `proto2`; the request's timeout is
untouched. -/
theorem outbound_requests_tagged_with_origin :
    (∀ {U1 U2 OI1 OI2 CE1 CE2 Err1 Err2 : Type}
        (sp : SubstreamProtocol U1 OI1)
        (p2 : Poll (ConnectionHandlerEvent U2 OI2 CE2 Err2)),
      ConnectionHandlerSelect.poll
          (Poll.Ready (ConnectionHandlerEvent.OutboundSubstreamRequest sp) :
            Poll (ConnectionHandlerEvent U1 OI1 CE1 Err1)) p2 =
        .Ready (.OutboundSubstreamRequest
          ⟨.A ⟨sp.upgrade⟩, .First sp.info, sp.timeout⟩)) ∧
    (∀ {U1 U2 OI1 OI2 CE1 CE2 Err1 Err2 : Type}
        (sp : SubstreamProtocol U2 OI2),
      ConnectionHandlerSelect.poll
          (Poll.Pending : Poll (ConnectionHandlerEvent U1 OI1 CE1 Err1))
          (Poll.Ready (ConnectionHandlerEvent.OutboundSubstreamRequest sp) :
            Poll (ConnectionHandlerEvent U2 OI2 CE2 Err2)) =
        .Ready (.OutboundSubstreamRequest
          ⟨.B ⟨sp.upgrade⟩, .Second sp.info, sp.timeout⟩)) :=
  ⟨fun _ _ => rfl, fun _ => rfl⟩

/-- C9: the composed listen protocol's negotiation timeout is exactly the
maximum of the two sides' listen-protocol timeouts, so composing never
shortens either side's timeout. -/
theorem composed_listen_timeout_is_max :
    ∀ {U1 U2 : Type} (proto1 : SubstreamProtocol U1 II1) (proto2 : SubstreamProtocol U2 II2),
      (listen_protocol proto1 proto2).timeout = max proto1.timeout proto2.timeout ∧
      proto1.timeout ≤ (listen_protocol proto1 proto2).timeout ∧
      proto2.timeout ≤ (listen_protocol proto1 proto2).timeout := by
  intro U1 U2 proto1 proto2
  refine ⟨rfl, ?_, ?_⟩
  · exact le_max_left _ _
  · exact le_max_right _ _

/-- C10: `proto1` is polled first and any ready event from it determines
the composed result without consulting `proto2`'s outcome; a ready event
from `proto2` is surfaced when `proto1` is pending; and the composed poll
is pending exactly when both sides are pending. -/
theorem poll_polls_proto1_first_and_pending_iff_both :
    ∀ {U1 U2 OI1 OI2 CE1 CE2 Err1 Err2 : Type},
      (∀ (e : ConnectionHandlerEvent U1 OI1 CE1 Err1)
          (p2 p2' : Poll (ConnectionHandlerEvent U2 OI2 CE2 Err2)),
        ConnectionHandlerSelect.poll (Poll.Ready e) p2 =
          ConnectionHandlerSelect.poll (Poll.Ready e) p2') ∧
      (∀ (e : ConnectionHandlerEvent U1 OI1 CE1 Err1)
          (p2 : Poll (ConnectionHandlerEvent U2 OI2 CE2 Err2)),
        ∃ e', ConnectionHandlerSelect.poll (Poll.Ready e) p2 = .Ready e') ∧
      (∀ e2 : ConnectionHandlerEvent U2 OI2 CE2 Err2,
        ∃ e', ConnectionHandlerSelect.poll
          (Poll.Pending : Poll (ConnectionHandlerEvent U1 OI1 CE1 Err1))
          (Poll.Ready e2) = .Ready e') ∧
      (∀ (p1 : Poll (ConnectionHandlerEvent U1 OI1 CE1 Err1))
          (p2 : Poll (ConnectionHandlerEvent U2 OI2 CE2 Err2)),
        ConnectionHandlerSelect.poll p1 p2 = .Pending ↔
          p1 = .Pending ∧ p2 = .Pending) := by
  intro U1 U2 OI1 OI2 CE1 CE2 Err1 Err2
  refine ⟨fun e p2 p2' => ?_, fun e p2 => ?_, fun e2 => ?_, fun p1 p2 => ?_⟩
  · cases e <;> rfl
  · cases e <;> exact ⟨_, rfl⟩
  · cases e2 <;> exact ⟨_, rfl⟩
  · constructor
    · intro h
      rcases p1 with e | _
      · cases e <;> simp [ConnectionHandlerSelect.poll] at h
      · rcases p2 with e | _
        · cases e <;> simp [ConnectionHandlerSelect.poll] at h
        · exact ⟨rfl, rfl⟩
    · rintro ⟨rfl, rfl⟩
      rfl

/-- C5: lifecycle notifications reach every composed side
unconditionally: the composed connection handler fans an address change
out to both `proto1` and `proto2`, and for every `FromSwarm` lifecycle
variant the derive-generated `on_swarm_event` body notifies the
behaviour's fields exactly once each (a permutation of the field list),
always with the incoming event. -/
theorem lifecycle_events_fanned_out_to_every_side :
    (∀ a : Addr,
      @on_connection_event IP1 IP2 OP1 OP2 II1 II2 OI1 OI2 EI1 EI2 EO1 EO2 Addr
          (.AddressChange ⟨a⟩) =
        some ([.AddressChange ⟨a⟩], [.AddressChange ⟨a⟩])) ∧
    (∀ (P : Type) (fields : List String) (ev : FromSwarm P),
      ((derived_on_swarm_event fields ev).map Prod.fst).Perm fields ∧
      ∀ pr ∈ derived_on_swarm_event fields ev, pr.2 = ev) := by
  refine ⟨fun _ => rfl, fun P fields ev => ⟨?_, ?_⟩⟩
  · have hmap : ∀ l : List String, (l.map (fun f => (f, ev))).map Prod.fst = l := by
      intro l
      induction l with
      | nil => rfl
      | cons a l ih => simp [ih]
    have hfwd : ((fields.map (fun f => (f, ev))).map Prod.fst).Perm fields := by
      rw [hmap]
    have hrev : (((fields.reverse).map (fun f => (f, ev))).map Prod.fst).Perm fields := by
      rw [hmap]
      exact List.reverse_perm fields
    cases ev <;> first | exact hfwd | exact hrev
  · have hfwd : ∀ pr ∈ fields.map (fun f => (f, ev)), pr.2 = ev := by
      intro pr hpr
      rcases List.mem_map.mp hpr with ⟨f, -, rfl⟩
      rfl
    have hrev : ∀ pr ∈ (fields.reverse).map (fun f => (f, ev)), pr.2 = ev := by
      intro pr hpr
      rcases List.mem_map.mp hpr with ⟨f, -, rfl⟩
      rfl
    cases ev <;> first | exact hfwd | exact hrev

/-- C5 witness: at a concrete field list and event, the generated body
delivers that event to a listed field. -/
theorem lifecycle_fanout_witness :
    (("alpha", (FromSwarm.ConnectionClosed 0 : FromSwarm Nat))).2 =
      FromSwarm.ConnectionClosed 0 :=
  ((@lifecycle_events_fanned_out_to_every_side
        Nat Nat Nat Nat Nat Nat Nat Nat Nat Nat Nat Nat Nat).2
      Nat ["alpha", "beta"] (.ConnectionClosed 0)).2
    ("alpha", .ConnectionClosed 0) (by decide)

/-- Appending one field to the generated `new_handler` fold wraps the
previous handler as the first component of one more `select`. -/
theorem new_handler_append_singleton (fields : List Nat) (f : Nat) :
    new_handler (fields ++ [f]) =
      match new_handler fields with
      | some h => some (.select h (.leaf f))
      | none => some (.leaf f) := by
  unfold new_handler
  rw [List.foldl_append]
  rfl

/-- C8 counterexample: for three composed fields the generated handler
tree is the left-nested `select(select(h1, h2), h3)`, not the
right-nested `select(h1, select(h2, h3))` the claim asserts. -/
theorem new_handler_three_fields_not_right_nested :
    new_handler [0, 1, 2] ≠ right_fold_shape [0, 1, 2] ∧
    new_handler [0, 1, 2] =
      some (.select (.select (.leaf 0) (.leaf 1)) (.leaf 2)) ∧
    right_fold_shape [0, 1, 2] =
      some (.select (.leaf 0) (.select (.leaf 1) (.leaf 2))) := by
  refine ⟨?_, rfl, rfl⟩
  decide

/-- C8 (amended): the composed handler is built by left-folding the
binary select combinator over the fields in declaration order, giving the
left-nested tree `select(select(...select(h1, h2)..., h_Nm1), h_N)` whose
leaves are the fields in order; the `Either` wrapping emitted by
`on_node_event_stmts` nests correspondingly, resolving to exactly the
leaf of the originating field; the shape is a pure function of the field
list, fixed at construction. -/
theorem new_handler_is_left_fold :
    ∀ fields : List Nat, fields ≠ [] →
      ∃ t : HandlerTree, new_handler fields = some t ∧
        t.left_nested = true ∧
        t.leaves = fields ∧
        ∀ (i : Nat) (h : i < fields.length),
          t.resolve (on_node_event_path fields.length i) = some (.leaf fields[i]) := by
  intro fields
  induction fields using List.reverseRecOn with
  | nil => intro h; exact absurd rfl h
  | append_singleton fs f ih =>
    intro _
    rcases eq_or_ne fs [] with hfs | hfs
    · subst hfs
      refine ⟨.leaf f, rfl, rfl, rfl, ?_⟩
      intro i h
      have hi0 : i = 0 := by
        simp only [List.nil_append, List.length_singleton] at h
        omega
      subst hi0
      rfl
    · obtain ⟨t', ht', hln, hlv, hres⟩ := ih hfs
      refine ⟨.select t' (.leaf f), ?_, ?_, ?_, ?_⟩
      · rw [new_handler_append_singleton, ht']
      · exact hln
      · simp [HandlerTree.leaves, hlv]
      · intro i h
        have hlen : (fs ++ [f]).length = fs.length + 1 := by simp
        have hfl : fs.length ≠ 0 := fun h0 => hfs (List.length_eq_zero.mp h0)
        rcases eq_or_ne i fs.length with hi | hi
        · subst hi
          have hpath : on_node_event_path (fs ++ [f]).length fs.length =
              [SelectSide.second] := by
            rw [hlen]
            simp [on_node_event_path, hfl]
          rw [hpath]
          simp only [HandlerTree.resolve]
          rw [List.getElem_concat_length]
          rfl
        · have hi' : i < fs.length := by
            rw [hlen] at h
            omega
          have hpath : on_node_event_path (fs ++ [f]).length i =
              SelectSide.first :: on_node_event_path fs.length i := by
            rw [hlen]
            simp only [on_node_event_path]
            have h1 : fs.length + 1 - 1 - i = (fs.length - 1 - i) + 1 := by omega
            rw [h1, List.replicate_succ, List.cons_append]
          rw [hpath]
          show t'.resolve (on_node_event_path fs.length i) = _
          rw [hres i hi']
          have hget : (fs ++ [f])[i] = fs[i] := List.getElem_append_left hi'
          rw [hget]

/-- C8 witness: the amended statement instantiated at a concrete
two-field behaviour. -/
theorem new_handler_left_fold_witness :
    ∃ t : HandlerTree, new_handler [5, 7] = some t ∧
      t.left_nested = true ∧
      t.leaves = [5, 7] ∧
      ∀ (i : Nat) (h : i < ([5, 7] : List Nat).length),
        t.resolve (on_node_event_path ([5, 7] : List Nat).length i) =
          some (.leaf ([5, 7] : List Nat)[i]) :=
  new_handler_is_left_fold [5, 7] (by decide)

end Theorems

end Libp2p
